import Mathlib

/-!
Verification of the collection-service workflow of the `project-economic`
repository (`src/services/servicioRecogidaService.ts`, the
`pages/api/servicios-recogida.ts` transport handler and `src/lib/utils.ts`).

Conventions of the embedding:
* Prisma `Decimal` values (tarifas, capacities, volumes, costs) are exact
  rationals `ℚ`.  `Decimal.times` and `toDecimalPlaces(2, ROUND_HALF_UP)` are
  exact rational multiplication and half-up rounding to 2 decimal places
  (decimal.js performs these exactly for all magnitudes arising here; its
  20-significant-digit operation precision is never exceeded by the business
  data in scope).
* A JavaScript `number` is modelled by its exact rational value, a binary64
  dyadic rational.  `Decimal.prototype.toNumber()` is rounding to the nearest
  binary64 value (ties to even), and `new Prisma.Decimal(n)` for a `number`
  `n` is the shortest-round-trip decimal conversion that ECMAScript
  `Number::toString` performs (decimal.js parses the number via its string
  representation).  Binary64 overflow and subnormal underflow are outside the
  modelled range; the business volumes and rates in scope are normal numbers.
* The Prisma store is a `Store` value; `findUnique` is list lookup by id.
  A failure of the underlying store during the single write of an operation
  is modelled by the explicit `writeFails` argument of each operation.
* Thrown JavaScript errors are the constructors of `ServicioError`, one per
  throw site, carrying the data interpolated into the original message.
-/

/-! ### Integer helpers (kernel-reducible, no `Nat.gcd` in the hot path) -/

/-- Fuel-driven base-2 logarithm on `ℕ`: `log2fuel f n` is `⌊log₂ n⌋` for
`n ≥ 1` whenever `f ≥ log₂ n`. -/
def log2fuel : ℕ → ℕ → ℕ
  | 0, _ => 0
  | f + 1, n => if n ≤ 1 then 0 else log2fuel f (n / 2) + 1

/-- Base-2 logarithm (floor) of a positive natural number. -/
def nlog2 (n : ℕ) : ℕ := log2fuel n n

/-- Fuel-driven base-10 logarithm on `ℕ`. -/
def log10fuel : ℕ → ℕ → ℕ
  | 0, _ => 0
  | f + 1, n => if n ≤ 9 then 0 else log10fuel f (n / 10) + 1

/-- Base-10 logarithm (floor) of a positive natural number. -/
def nlog10 (n : ℕ) : ℕ := log10fuel n n

/-- Decide `q < 2 ^ e` by integer cross-multiplication. -/
def qltPow2 (q : ℚ) (e : ℤ) : Bool :=
  if 0 ≤ e then q.num < 2 ^ e.toNat * (q.den : ℤ)
  else q.num * 2 ^ (-e).toNat < (q.den : ℤ)

/-- Decide `q < 10 ^ e` by integer cross-multiplication. -/
def qltPow10 (q : ℚ) (e : ℤ) : Bool :=
  if 0 ≤ e then q.num < 10 ^ e.toNat * (q.den : ℤ)
  else q.num * 10 ^ (-e).toNat < (q.den : ℤ)

/-- `⌊log₂ q⌋` for positive `q`: estimate from the numerator and denominator
logarithms, then correct by direct comparison (the estimate is off by at most
one). -/
def floorLog2 (q : ℚ) : ℤ :=
  let e : ℤ := (nlog2 q.num.natAbs : ℤ) - (nlog2 q.den : ℤ)
  if ¬ qltPow2 q (e + 1) then e + 1
  else if qltPow2 q e then e - 1
  else e

/-- `⌊log₁₀ q⌋` for positive `q`, by the same estimate-and-correct scheme. -/
def floorLog10 (q : ℚ) : ℤ :=
  let e : ℤ := (nlog10 q.num.natAbs : ℤ) - (nlog10 q.den : ℤ)
  if ¬ qltPow10 q (e + 1) then e + 1
  else if qltPow10 q e then e - 1
  else e

/-- Round a rational to the nearest integer, ties to even. -/
def rndHalfEven (q : ℚ) : ℤ :=
  let f := q.num.fdiv (q.den : ℤ)
  let r2 := 2 * (q.num - f * (q.den : ℤ))
  if r2 < (q.den : ℤ) then f
  else if (q.den : ℤ) < r2 then f + 1
  else if f % 2 = 0 then f else f + 1

/-- `q * 2 ^ k` computed without rational normalisation of intermediate
products. -/
def qscale2 (q : ℚ) (k : ℤ) : ℚ :=
  if 0 ≤ k then mkRat (q.num * 2 ^ k.toNat) q.den
  else mkRat q.num (q.den * 2 ^ (-k).toNat)

/-- `q * 10 ^ k` computed without rational normalisation of intermediate
products. -/
def qscale10 (q : ℚ) (k : ℤ) : ℚ :=
  if 0 ≤ k then mkRat (q.num * 10 ^ k.toNat) q.den
  else mkRat q.num (q.den * 10 ^ (-k).toNat)

/-- `m * 2 ^ e` as a rational. -/
def intScaled2 (m : ℤ) (e : ℤ) : ℚ :=
  if 0 ≤ e then mkRat (m * 2 ^ e.toNat) 1 else mkRat m (2 ^ (-e).toNat)

/-- `m * 10 ^ e` as a rational. -/
def intScaled10 (m : ℤ) (e : ℤ) : ℚ :=
  if 0 ≤ e then mkRat (m * 10 ^ e.toNat) 1 else mkRat m (10 ^ (-e).toNat)

/-! ### The binary64 / decimal conversion layer -/

/-- Value of the binary64 number nearest to a positive rational `q`
(round to nearest, ties to even, 53-bit significand, normal range).  This is
what `Decimal.prototype.toNumber()` of decimal.js produces for the decimal
value `q`. -/
def nearestDoublePos (q : ℚ) : ℚ :=
  let e := floorLog2 q
  intScaled2 (rndHalfEven (qscale2 q (52 - e))) (e - 52)

/-- Value of the binary64 number nearest to a rational (sign-symmetric
extension of `nearestDoublePos`). -/
def nearestDouble (q : ℚ) : ℚ :=
  if q = 0 then 0
  else if q < 0 then - nearestDoublePos (-q) else nearestDoublePos q

/-- Candidate with `k` significant decimal digits for the shortest-decimal
search: the nearest `k`-digit decimal to `v`, where `n = ⌊log₁₀ v⌋ + 1`. -/
def sdCand (v : ℚ) (n : ℤ) (k : ℕ) : ℚ :=
  intScaled10 (rndHalfEven (qscale10 v ((k : ℤ) - n))) (n - (k : ℤ))

/-- Search for the decimal with the fewest significant digits whose nearest
binary64 value is `v`, trying digit counts `k, k+1, …` while fuel lasts.
This is the ECMAScript `Number::toString` shortest round-trip selection. -/
def sdSearch (v : ℚ) (n : ℤ) : ℕ → ℕ → ℚ
  | 0, k => sdCand v n k
  | fuel + 1, k => if nearestDouble (sdCand v n k) = v then sdCand v n k
    else sdSearch v n fuel (k + 1)

/-- Shortest decimal representation of a positive binary64 value `v`
(17 significant digits always suffice for binary64). -/
def shortestDecPos (v : ℚ) : ℚ := sdSearch v (floorLog10 v + 1) 16 1

/-- The exact decimal value produced by `new Prisma.Decimal(n)` when `n` is a
JavaScript `number` with binary64 value `v`: decimal.js parses the ECMAScript
string representation of `n`, which is the shortest decimal that rounds back
to `v`. -/
def shortestDec (v : ℚ) : ℚ :=
  if v = 0 then 0
  else if v < 0 then - shortestDecPos (-v) else shortestDecPos v

/-- Exact product of two rationals, computed gcd-free through `mkRat`;
embeds `Decimal.prototype.times`. -/
def qmul (a b : ℚ) : ℚ := mkRat (a.num * b.num) (a.den * b.den)

/-- Half-up rounding of a nonnegative rational to 2 decimal places:
`⌊q·100 + 1/2⌋ / 100` computed on integers. -/
def roundHalfUp2Pos (q : ℚ) : ℚ :=
  mkRat ((200 * q.num + (q.den : ℤ)).fdiv (2 * (q.den : ℤ))) 100

/-- `toDecimalPlaces(2, Prisma.Decimal.ROUND_HALF_UP)`: round to 2 decimal
places, ties away from zero (decimal.js ROUND_HALF_UP). -/
def roundHalfUp2 (q : ℚ) : ℚ :=
  if q < 0 then - roundHalfUp2Pos (-q) else roundHalfUp2Pos q

/-! ### Data model (Prisma entities, exact decimal fields as `ℚ`) -/

/-- Client category enumeration (`ClienteTipo` of the Prisma client). -/
inductive ClienteTipo where
  | HOTEL
  | HEALTH
  | HOUSE
deriving DecidableEq

/-- A `cliente` row. -/
structure Cliente where
  id : ℤ
  nombre : String
  tipo : ClienteTipo
  direccion : String
  tarifa_por_m3 : ℚ
deriving DecidableEq

/-- A `vehiculo` row. -/
structure Vehiculo where
  id : ℤ
  matricula : String
  capacidad_max_m3 : ℚ
  consumo_combustible_litros : ℚ
deriving DecidableEq

/-- A `trabajador` row. -/
structure Trabajador where
  id : ℤ
  nombre : String
  rol : String
  salario_base : ℚ
deriving DecidableEq

/-- A `servicioRecogida` row.  `fecha` is the millisecond value of the stored
date (its contents are never interpreted by the workflow). -/
structure ServicioRecogida where
  id : ℤ
  clienteId : ℤ
  vehiculoId : ℤ
  trabajadorId : ℤ
  fecha : ℚ
  volumen_recogido_m3 : ℚ
  costo_servicio : ℚ
deriving DecidableEq

/-- The relational store backing the Prisma client.  `nextServicioId` models
the autoincrement id sequence of `servicioRecogida`. -/
structure Store where
  clientes : List Cliente
  vehiculos : List Vehiculo
  trabajadores : List Trabajador
  servicios : List ServicioRecogida
  nextServicioId : ℤ
deriving DecidableEq

/-- Lookup of a `cliente` row by id (`prisma.cliente.findUnique`). -/
def Store.findCliente (db : Store) (id : ℤ) : Option Cliente :=
  db.clientes.find? (fun c => c.id == id)

/-- Lookup of a `vehiculo` row by id (`prisma.vehiculo.findUnique`). -/
def Store.findVehiculo (db : Store) (id : ℤ) : Option Vehiculo :=
  db.vehiculos.find? (fun v => v.id == id)

/-- Lookup of a `trabajador` row by id (`prisma.trabajador.findUnique`). -/
def Store.findTrabajador (db : Store) (id : ℤ) : Option Trabajador :=
  db.trabajadores.find? (fun t => t.id == id)

/-- Lookup of a `servicioRecogida` row by id (`prisma.servicioRecogida.findUnique`). -/
def Store.findServicio (db : Store) (id : ℤ) : Option ServicioRecogida :=
  db.servicios.find? (fun s => s.id == id)

/-! ### Errors

The service throws plain `Error` objects; one constructor per throw site,
carrying the data interpolated into the message.  The constructor names
follow the error taxonomy of the specification. -/

/-- Classified throw sites of `servicioRecogidaService.ts`. -/
inductive ServicioError where
  /-- `El volumen recogido debe ser un valor positivo.` -/
  | validationError (msg : String)
  /-- `<entidad> con ID <id> no encontrado.` -/
  | notFoundError (entidad : String) (id : ℤ)
  /-- `El volumen recogido (<volumen> m³) excede la capacidad máxima del
  vehículo (<capacidad> m³).` -/
  | capacityExceededError (volumen : ℚ) (capacidad : ℚ)
  /-- catch-all wrapper around a failed store call. -/
  | persistenceError (msg : String)
deriving DecidableEq

/-- Is the error one of the `no encontrado` throws? -/
def ServicioError.esNotFound : ServicioError → Bool
  | .notFoundError _ _ => true
  | _ => false

/-- Outcome of a service call: the returned record or the thrown error. -/
inductive ServicioResult where
  | ok (servicio : ServicioRecogida)
  | error (e : ServicioError)
deriving DecidableEq

/-! ### The service workflow (`servicioRecogidaService.ts`) -/

/-- Input of `crearServicioRecogida`; `volumen_recogido_m3` is a JavaScript
`number` (modelled by its exact binary64 value).  There is no cost field:
the caller cannot supply a cost. -/
structure CreateServicioRecogidaData where
  clienteId : ℤ
  vehiculoId : ℤ
  trabajadorId : ℤ
  fecha : ℚ
  volumen_recogido_m3 : ℚ
deriving DecidableEq

/-- `crearServicioRecogida` (lines 135–204 of the service source): validate
volume positivity, vehicle existence, capacity, client and worker existence,
in that order; derive the cost; then perform the single `create` write.
`writeFails` models a store-level failure of that write.  The intermediate
`const` bindings of the source (`volumenRecogidoDecimal`, `costoServicio`,
`nuevoServicio`) are inlined. -/
def crearServicioRecogida (db : Store) (data : CreateServicioRecogidaData)
    (writeFails : Bool) : Store × ServicioResult :=
  if data.volumen_recogido_m3 ≤ 0 then
    (db, .error (.validationError "El volumen recogido debe ser un valor positivo."))
  else
    match db.findVehiculo data.vehiculoId with
    | none => (db, .error (.notFoundError "Vehículo" data.vehiculoId))
    | some vehiculo =>
      if vehiculo.capacidad_max_m3 < shortestDec data.volumen_recogido_m3 then
        (db, .error (.capacityExceededError data.volumen_recogido_m3
          vehiculo.capacidad_max_m3))
      else
        match db.findCliente data.clienteId with
        | none => (db, .error (.notFoundError "Cliente" data.clienteId))
        | some cliente =>
          match db.findTrabajador data.trabajadorId with
          | none => (db, .error (.notFoundError "Trabajador" data.trabajadorId))
          | some _ =>
            if writeFails then
              (db, .error (.persistenceError
                "No se pudo crear el servicio de recogida debido a un error interno."))
            else
              ({ db with
                  servicios := db.servicios ++
                    [⟨db.nextServicioId, data.clienteId, data.vehiculoId,
                      data.trabajadorId, data.fecha,
                      shortestDec data.volumen_recogido_m3,
                      roundHalfUp2 (qmul (shortestDec data.volumen_recogido_m3)
                        cliente.tarifa_por_m3)⟩]
                  nextServicioId := db.nextServicioId + 1 },
                .ok ⟨db.nextServicioId, data.clienteId, data.vehiculoId,
                  data.trabajadorId, data.fecha,
                  shortestDec data.volumen_recogido_m3,
                  roundHalfUp2 (qmul (shortestDec data.volumen_recogido_m3)
                    cliente.tarifa_por_m3)⟩)

/-- Input of `actualizarServicioRecogida`: every field optional; `none` is a
field absent from the request (`undefined`). -/
structure UpdateServicioRecogidaData where
  clienteId : Option ℤ
  vehiculoId : Option ℤ
  trabajadorId : Option ℤ
  fecha : Option ℚ
  volumen_recogido_m3 : Option ℚ
deriving DecidableEq

/-- `actualizarServicioRecogida` (lines 255–346): load the existing record
(`NotFound` if absent), merge each absent field from it — the stored volume
through `Decimal.toNumber()` (`nearestDouble`) — re-run the full validation
chain on the merged values, recompute the cost, and perform the single
`update` write.  The `final*`, `volumenRecogidoDecimal`, `costoServicio` and
`servicioActualizado` bindings of the source are inlined (`x ?? y` is
`Option.getD`). -/
def actualizarServicioRecogida (db : Store) (id : ℤ)
    (data : UpdateServicioRecogidaData) (writeFails : Bool) :
    Store × ServicioResult :=
  match db.findServicio id with
  | none => (db, .error (.notFoundError "Servicio de recogida" id))
  | some servicioExistente =>
    if data.volumen_recogido_m3.getD
        (nearestDouble servicioExistente.volumen_recogido_m3) ≤ 0 then
      (db, .error (.validationError "El volumen recogido debe ser un valor positivo."))
    else
      match db.findVehiculo (data.vehiculoId.getD servicioExistente.vehiculoId) with
      | none => (db, .error (.notFoundError "Vehículo"
          (data.vehiculoId.getD servicioExistente.vehiculoId)))
      | some vehiculo =>
        if vehiculo.capacidad_max_m3 < shortestDec (data.volumen_recogido_m3.getD
            (nearestDouble servicioExistente.volumen_recogido_m3)) then
          (db, .error (.capacityExceededError
            (data.volumen_recogido_m3.getD
              (nearestDouble servicioExistente.volumen_recogido_m3))
            vehiculo.capacidad_max_m3))
        else
          match db.findCliente (data.clienteId.getD servicioExistente.clienteId) with
          | none => (db, .error (.notFoundError "Cliente"
              (data.clienteId.getD servicioExistente.clienteId)))
          | some cliente =>
            match db.findTrabajador
                (data.trabajadorId.getD servicioExistente.trabajadorId) with
            | none => (db, .error (.notFoundError "Trabajador"
                (data.trabajadorId.getD servicioExistente.trabajadorId)))
            | some _ =>
              if writeFails then
                (db, .error (.persistenceError
                  "No se pudo actualizar el servicio de recogida."))
              else
                ({ db with
                    servicios := db.servicios.map
                      (fun s => if s.id == id then
                        ⟨servicioExistente.id,
                          data.clienteId.getD servicioExistente.clienteId,
                          data.vehiculoId.getD servicioExistente.vehiculoId,
                          data.trabajadorId.getD servicioExistente.trabajadorId,
                          data.fecha.getD servicioExistente.fecha,
                          shortestDec (data.volumen_recogido_m3.getD
                            (nearestDouble servicioExistente.volumen_recogido_m3)),
                          roundHalfUp2 (qmul
                            (shortestDec (data.volumen_recogido_m3.getD
                              (nearestDouble servicioExistente.volumen_recogido_m3)))
                            cliente.tarifa_por_m3)⟩
                        else s) },
                  .ok ⟨servicioExistente.id,
                    data.clienteId.getD servicioExistente.clienteId,
                    data.vehiculoId.getD servicioExistente.vehiculoId,
                    data.trabajadorId.getD servicioExistente.trabajadorId,
                    data.fecha.getD servicioExistente.fecha,
                    shortestDec (data.volumen_recogido_m3.getD
                      (nearestDouble servicioExistente.volumen_recogido_m3)),
                    roundHalfUp2 (qmul
                      (shortestDec (data.volumen_recogido_m3.getD
                        (nearestDouble servicioExistente.volumen_recogido_m3)))
                      cliente.tarifa_por_m3)⟩)

/-- `eliminarServicioRecogida` (lines 353–363): a bare `prisma.delete` in a
`try`/`catch`.  Prisma throws when the record is absent, and the `catch`
wraps every failure — absence included — in the same generic error. -/
def eliminarServicioRecogida (db : Store) (id : ℤ) (writeFails : Bool) :
    Store × ServicioResult :=
  match db.findServicio id with
  | none => (db, .error (.persistenceError "No se pudo eliminar el servicio de recogida."))
  | some servicioEliminado =>
    if writeFails then
      (db, .error (.persistenceError "No se pudo eliminar el servicio de recogida."))
    else
      ({ db with servicios := db.servicios.filter (fun s => !(s.id == id)) },
        .ok servicioEliminado)

/-! ### Transport layer: the `servicios-recogida` PUT handler

`pages/api/servicios-recogida.ts` reads untyped JSON body fields.  A body
field is modelled by `BodyVal`: absent (`undefined`), `null`, a number, or a
string.  (Booleans and nested objects in body fields are outside the model;
no claim concerns them.  A string in the volume field would flow through
`parseFloat` into a NaN-bearing path that the exact numeric model does not
represent; the handler model routes that unmodelled branch to a server
error, and no claim touches it.) -/

/-- An untyped JSON body field as the handler sees it. -/
inductive BodyVal where
  | undef
  | null
  | num (q : ℚ)
  | str (s : String)
deriving DecidableEq

/-- JavaScript truthiness of a body field (`0`, `""`, `null`, `undefined`
are falsy). -/
def BodyVal.truthy : BodyVal → Bool
  | .undef => false
  | .null => false
  | .num q => !(q == 0)
  | .str s => !(s == "")

/-- `BigInt(v)`: succeeds on integral numbers and integer-shaped strings,
throws otherwise (`none`). -/
def bodyToBigInt : BodyVal → Option ℤ
  | .num q => if q.den == 1 then some q.num else none
  | .str s => s.toInt?
  | _ => none

/-- `new Date(v)` value; string date parsing is abstracted (no claim
inspects a parsed date value). -/
def dateVal : BodyVal → ℚ
  | .num q => q
  | _ => 0

/-- The handler argument built from a reference-id field:
`v ? BigInt(v) : undefined`.  Outer `none` is a thrown `BigInt` conversion;
`some none` passes `undefined` to the service. -/
def refArgOf (v : BodyVal) : Option (Option ℤ) :=
  if v.truthy then
    match bodyToBigInt v with
    | some n => some (some n)
    | none => none
  else some none

/-- The handler argument built from the `fecha` field:
`fecha ? new Date(fecha) : undefined` (never throws). -/
def fechaArgOf (v : BodyVal) : Option ℚ :=
  if v.truthy then some (dateVal v) else none

/-- The handler argument built from the volume field:
`volumen_recogido_m3 !== undefined ? parseFloat(volumen_recogido_m3) :
undefined`.  Outer `none` marks the unmodelled NaN-bearing branch
(`parseFloat` of a non-number); `some none` passes `undefined`. -/
def volArgOf : BodyVal → Option (Option ℚ)
  | .undef => some none
  | .num q => some (some q)
  | _ => none

/-- HTTP outcome of the PUT branch of the handler. -/
inductive ApiResult where
  | ok (db : Store) (servicio : ServicioRecogida)
  | badRequest (msg : String)
  | serverError (e : Option ServicioError)
deriving DecidableEq

/-- The PUT branch of the `servicios-recogida` handler (lines 47–66): reject
a falsy `id` with 400; convert each body field as the source does; call
`actualizarServicioRecogida`; map a thrown service error to a 500. -/
def handlerPut (db : Store) (id clienteId vehiculoId trabajadorId fecha
    volumen_recogido_m3 : BodyVal) : ApiResult :=
  if ¬ id.truthy then
    .badRequest "ID del servicio de recogida es obligatorio para actualizar."
  else
    match bodyToBigInt id, refArgOf clienteId, refArgOf vehiculoId,
        refArgOf trabajadorId, volArgOf volumen_recogido_m3 with
    | some i, some c, some ve, some t, some vo =>
      match actualizarServicioRecogida db i
        ⟨c, ve, t, fechaArgOf fecha, vo⟩ false with
      | (db2, .ok servicio) => .ok db2 servicio
      | (_, .error e) => .serverError (some e)
    | _, _, _, _, _ => .serverError none

/-! ### `serializeBigInt` (`src/lib/utils.ts`)

`JSON.parse(JSON.stringify(obj, replacer))` with a replacer that turns every
bigint into its base-10 string.  `JsValue` is a JSON-serialisable JavaScript
value possibly containing bigints (finite numbers only: `NaN` and infinities
do not survive JSON and are not JSON-serialisable); `JsonValue` is what the
produced JSON text denotes, which `JSON.parse` maps back to a value. -/

mutual

/-- A JSON-serialisable JavaScript value, bigints allowed at any depth. -/
inductive JsValue where
  | null
  | bool (b : Bool)
  | num (q : ℚ)
  | str (s : String)
  | bigint (n : ℤ)
  | arr (elems : JsArray)
  | obj (fields : JsObject)

/-- Array of JSON-serialisable values. -/
inductive JsArray where
  | nil
  | cons (head : JsValue) (tail : JsArray)

/-- Ordered fields of a JSON-serialisable object. -/
inductive JsObject where
  | nil
  | cons (key : String) (value : JsValue) (rest : JsObject)

end

mutual

/-- A value of JSON text (no bigints: the replacer has eliminated them). -/
inductive JsonValue where
  | null
  | bool (b : Bool)
  | num (q : ℚ)
  | str (s : String)
  | arr (elems : JsonArray)
  | obj (fields : JsonObject)

/-- Array of JSON text values. -/
inductive JsonArray where
  | nil
  | cons (head : JsonValue) (tail : JsonArray)

/-- Ordered fields of a JSON text object. -/
inductive JsonObject where
  | nil
  | cons (key : String) (value : JsonValue) (rest : JsonObject)

end

mutual

/-- `JSON.stringify(obj, (key, value) => typeof value === 'bigint' ?
value.toString() : value)`: the replacer visits every key/value pair and the
root, so each bigint is serialised as its base-10 string. -/
def stringifyWithReplacer : JsValue → JsonValue
  | .null => .null
  | .bool b => .bool b
  | .num q => .num q
  | .str s => .str s
  | .bigint n => .str (toString n)
  | .arr xs => .arr (stringifyArr xs)
  | .obj fs => .obj (stringifyObj fs)

/-- Elementwise serialisation of an array. -/
def stringifyArr : JsArray → JsonArray
  | .nil => .nil
  | .cons x xs => .cons (stringifyWithReplacer x) (stringifyArr xs)

/-- Fieldwise serialisation of an object. -/
def stringifyObj : JsObject → JsonObject
  | .nil => .nil
  | .cons k v fs => .cons k (stringifyWithReplacer v) (stringifyObj fs)

end

mutual

/-- `JSON.parse` of the produced text: the denoted value, unchanged. -/
def parseJson : JsonValue → JsValue
  | .null => .null
  | .bool b => .bool b
  | .num q => .num q
  | .str s => .str s
  | .arr xs => .arr (parseArr xs)
  | .obj fs => .obj (parseObj fs)

/-- Elementwise parse of an array. -/
def parseArr : JsonArray → JsArray
  | .nil => .nil
  | .cons x xs => .cons (parseJson x) (parseArr xs)

/-- Fieldwise parse of an object. -/
def parseObj : JsonObject → JsObject
  | .nil => .nil
  | .cons k v fs => .cons k (parseJson v) (parseObj fs)

end

/-- `serializeBigInt` from `src/lib/utils.ts`: round-trip through JSON text
with the bigint replacer. -/
def serializeBigInt (v : JsValue) : JsValue := parseJson (stringifyWithReplacer v)

mutual

/-- Modelled from the spec claim wording: the structurally identical value in
which every bigint at any nesting depth is replaced by its base-10 string
representation and every other value is unchanged. -/
def replaceBigintsDeep : JsValue → JsValue
  | .null => .null
  | .bool b => .bool b
  | .num q => .num q
  | .str s => .str s
  | .bigint n => .str (toString n)
  | .arr xs => .arr (replaceBigintsArr xs)
  | .obj fs => .obj (replaceBigintsObj fs)

/-- Elementwise bigint replacement in an array. -/
def replaceBigintsArr : JsArray → JsArray
  | .nil => .nil
  | .cons x xs => .cons (replaceBigintsDeep x) (replaceBigintsArr xs)

/-- Fieldwise bigint replacement in an object. -/
def replaceBigintsObj : JsObject → JsObject
  | .nil => .nil
  | .cons k v fs => .cons k (replaceBigintsDeep v) (replaceBigintsObj fs)

end

/-! ### Concrete stores used by witnesses and counterexamples -/

/-- Demonstration store: one client (tarifa 5.50 per m³), two vehicles
(capacities 20 m³ and 10 m³), one worker, no service records yet. -/
def dbDemo : Store :=
  ⟨[⟨1, "Hotel Sol", .HOTEL, "Calle Mayor 1", mkRat 11 2⟩],
   [⟨1, "ABC123", mkRat 20 1, mkRat 10 1⟩, ⟨2, "XYZ789", mkRat 10 1, mkRat 8 1⟩],
   [⟨1, "Ana", "conductora", mkRat 1200 1⟩],
   [], 1⟩

/-- `dbDemo` after one persisted service record of volume 15.5 m³
(cost 15.5 × 5.50 = 85.25). -/
def dbDemoConServicio : Store :=
  ⟨[⟨1, "Hotel Sol", .HOTEL, "Calle Mayor 1", mkRat 11 2⟩],
   [⟨1, "ABC123", mkRat 20 1, mkRat 10 1⟩, ⟨2, "XYZ789", mkRat 10 1, mkRat 8 1⟩],
   [⟨1, "Ana", "conductora", mkRat 1200 1⟩],
   [⟨1, 1, 1, 1, 0, mkRat 31 2, mkRat 341 4⟩], 2⟩

/-- Store whose persisted record holds the 17-significant-digit volume
0.10000000000000001, storable as a decimal but not the shortest decimal
representation of any binary64 value. -/
def dbPrecision : Store :=
  ⟨[⟨1, "Hotel Sol", .HOTEL, "Calle Mayor 1", mkRat 10 1⟩],
   [⟨1, "ABC123", mkRat 20 1, mkRat 10 1⟩],
   [⟨1, "Ana", "conductora", mkRat 1200 1⟩],
   [⟨1, 1, 1, 1, 0, mkRat 10000000000000001 100000000000000000, mkRat 1 1⟩], 2⟩

/-! ### Theorems -/

/-- `qmul` is exact rational multiplication. -/
theorem qmul_eq_mul (a b : ℚ) : qmul a b = a * b := by
  rw [qmul, Rat.mkRat_eq_div]
  push_cast
  rw [← div_mul_div_comm, Rat.num_div_den, Rat.num_div_den]

/-- Inversion of a successful create: which lookups must have succeeded,
which checks must have passed, and what exactly was persisted. -/
theorem crearServicioRecogida_ok_inv
    {db : Store} {data : CreateServicioRecogidaData} {wf : Bool}
    {db2 : Store} {rec : ServicioRecogida}
    (h : crearServicioRecogida db data wf = (db2, .ok rec)) :
    wf = false ∧ 0 < data.volumen_recogido_m3 ∧
    ∃ vehiculo cliente trabajador,
      db.findVehiculo data.vehiculoId = some vehiculo ∧
      db.findCliente data.clienteId = some cliente ∧
      db.findTrabajador data.trabajadorId = some trabajador ∧
      shortestDec data.volumen_recogido_m3 ≤ vehiculo.capacidad_max_m3 ∧
      rec = ⟨db.nextServicioId, data.clienteId, data.vehiculoId,
        data.trabajadorId, data.fecha, shortestDec data.volumen_recogido_m3,
        roundHalfUp2 (qmul (shortestDec data.volumen_recogido_m3)
          cliente.tarifa_por_m3)⟩ ∧
      db2 = { db with servicios := db.servicios ++ [rec], nextServicioId := db.nextServicioId + 1 } := by
  rw [crearServicioRecogida] at h
  by_cases hvol : data.volumen_recogido_m3 ≤ 0
  · rw [if_pos hvol] at h
    simp at h
  · rw [if_neg hvol] at h
    rcases hveh : db.findVehiculo data.vehiculoId with _ | vehiculo
    · rw [hveh] at h
      simp at h
    · rw [hveh] at h
      simp only [] at h
      by_cases hcap : vehiculo.capacidad_max_m3 < shortestDec data.volumen_recogido_m3
      · rw [if_pos hcap] at h
        simp at h
      · rw [if_neg hcap] at h
        rcases hcli : db.findCliente data.clienteId with _ | cliente
        · rw [hcli] at h
          simp at h
        · rw [hcli] at h
          simp only [] at h
          rcases htra : db.findTrabajador data.trabajadorId with _ | trabajador
          · rw [htra] at h
            simp at h
          · rw [htra] at h
            simp only [] at h
            cases wf
            · rw [if_neg (by simp)] at h
              simp only [Prod.mk.injEq, ServicioResult.ok.injEq] at h
              obtain ⟨hdb2, hrec⟩ := h
              subst hrec
              exact ⟨rfl, not_le.mp hvol, vehiculo, cliente, trabajador,
                rfl, rfl, rfl, not_lt.mp hcap, rfl, hdb2.symm⟩
            · rw [if_pos rfl] at h
              simp at h

/-- Inversion of a successful update: the record must exist, every check on
the merged values must have passed, and the persisted record is the merge
with recomputed volume and cost. -/
theorem actualizarServicioRecogida_ok_inv
    {db : Store} {id : ℤ} {data : UpdateServicioRecogidaData} {wf : Bool}
    {db2 : Store} {rec : ServicioRecogida}
    (h : actualizarServicioRecogida db id data wf = (db2, .ok rec)) :
    wf = false ∧
    ∃ servicioExistente vehiculo cliente trabajador,
      db.findServicio id = some servicioExistente ∧
      0 < data.volumen_recogido_m3.getD
        (nearestDouble servicioExistente.volumen_recogido_m3) ∧
      db.findVehiculo (data.vehiculoId.getD servicioExistente.vehiculoId)
        = some vehiculo ∧
      db.findCliente (data.clienteId.getD servicioExistente.clienteId)
        = some cliente ∧
      db.findTrabajador (data.trabajadorId.getD servicioExistente.trabajadorId)
        = some trabajador ∧
      shortestDec (data.volumen_recogido_m3.getD
          (nearestDouble servicioExistente.volumen_recogido_m3))
        ≤ vehiculo.capacidad_max_m3 ∧
      rec = ⟨servicioExistente.id,
        data.clienteId.getD servicioExistente.clienteId,
        data.vehiculoId.getD servicioExistente.vehiculoId,
        data.trabajadorId.getD servicioExistente.trabajadorId,
        data.fecha.getD servicioExistente.fecha,
        shortestDec (data.volumen_recogido_m3.getD
          (nearestDouble servicioExistente.volumen_recogido_m3)),
        roundHalfUp2 (qmul (shortestDec (data.volumen_recogido_m3.getD
            (nearestDouble servicioExistente.volumen_recogido_m3)))
          cliente.tarifa_por_m3)⟩ ∧
      db2 = { db with servicios := db.servicios.map (fun s => if s.id == id then rec else s) } := by
  rw [actualizarServicioRecogida] at h
  rcases hsrv : db.findServicio id with _ | servicioExistente
  · rw [hsrv] at h
    simp at h
  · rw [hsrv] at h
    simp only [] at h
    by_cases hvol : data.volumen_recogido_m3.getD
        (nearestDouble servicioExistente.volumen_recogido_m3) ≤ 0
    · rw [if_pos hvol] at h
      simp at h
    · rw [if_neg hvol] at h
      rcases hveh : db.findVehiculo (data.vehiculoId.getD servicioExistente.vehiculoId)
        with _ | vehiculo
      · rw [hveh] at h
        simp at h
      · rw [hveh] at h
        simp only [] at h
        by_cases hcap : vehiculo.capacidad_max_m3 < shortestDec
            (data.volumen_recogido_m3.getD
              (nearestDouble servicioExistente.volumen_recogido_m3))
        · rw [if_pos hcap] at h
          simp at h
        · rw [if_neg hcap] at h
          rcases hcli : db.findCliente (data.clienteId.getD servicioExistente.clienteId)
            with _ | cliente
          · rw [hcli] at h
            simp at h
          · rw [hcli] at h
            simp only [] at h
            rcases htra : db.findTrabajador
                (data.trabajadorId.getD servicioExistente.trabajadorId) with _ | trabajador
            · rw [htra] at h
              simp at h
            · rw [htra] at h
              simp only [] at h
              cases wf
              · rw [if_neg (by simp)] at h
                simp only [Prod.mk.injEq, ServicioResult.ok.injEq] at h
                obtain ⟨hdb2, hrec⟩ := h
                subst hrec
                exact ⟨rfl, servicioExistente, vehiculo, cliente, trabajador,
                  rfl, not_le.mp hvol, hveh, hcli, htra, not_lt.mp hcap,
                  rfl, hdb2.symm⟩
              · rw [if_pos rfl] at h
                simp at h

/-- Create, check 1: a non-positive volume fails first, with the validation
message, touching nothing else. -/
theorem crear_volumen_no_positivo (db : Store) (data : CreateServicioRecogidaData)
    (wf : Bool) (hvol : data.volumen_recogido_m3 ≤ 0) :
    crearServicioRecogida db data wf =
      (db, .error (.validationError "El volumen recogido debe ser un valor positivo.")) := by
  rw [crearServicioRecogida, if_pos hvol]

/-- Create, check 2: with a positive volume, a missing vehicle fails with the
vehicle `NotFound` error. -/
theorem crear_vehiculo_ausente (db : Store) (data : CreateServicioRecogidaData)
    (wf : Bool) (hvol : 0 < data.volumen_recogido_m3)
    (hveh : db.findVehiculo data.vehiculoId = none) :
    crearServicioRecogida db data wf =
      (db, .error (.notFoundError "Vehículo" data.vehiculoId)) := by
  rw [crearServicioRecogida, if_neg (not_le.mpr hvol), hveh]

/-- Create, check 3: a volume whose decimal conversion exceeds the found
vehicle capacity fails with the capacity error carrying the attempted volume
and the limit. -/
theorem crear_capacidad_excedida (db : Store) (data : CreateServicioRecogidaData)
    (wf : Bool) (vehiculo : Vehiculo) (hvol : 0 < data.volumen_recogido_m3)
    (hveh : db.findVehiculo data.vehiculoId = some vehiculo)
    (hcap : vehiculo.capacidad_max_m3 < shortestDec data.volumen_recogido_m3) :
    crearServicioRecogida db data wf =
      (db, .error (.capacityExceededError data.volumen_recogido_m3
        vehiculo.capacidad_max_m3)) := by
  rw [crearServicioRecogida, if_neg (not_le.mpr hvol), hveh]
  simp only []
  rw [if_pos hcap]

/-- Create, check 4: with volume and capacity accepted, a missing client
fails with the client `NotFound` error. -/
theorem crear_cliente_ausente (db : Store) (data : CreateServicioRecogidaData)
    (wf : Bool) (vehiculo : Vehiculo) (hvol : 0 < data.volumen_recogido_m3)
    (hveh : db.findVehiculo data.vehiculoId = some vehiculo)
    (hcap : shortestDec data.volumen_recogido_m3 ≤ vehiculo.capacidad_max_m3)
    (hcli : db.findCliente data.clienteId = none) :
    crearServicioRecogida db data wf =
      (db, .error (.notFoundError "Cliente" data.clienteId)) := by
  rw [crearServicioRecogida, if_neg (not_le.mpr hvol), hveh]
  simp only []
  rw [if_neg (not_lt.mpr hcap), hcli]

/-- Create, check 5: with everything earlier accepted, a missing worker fails
with the worker `NotFound` error. -/
theorem crear_trabajador_ausente (db : Store) (data : CreateServicioRecogidaData)
    (wf : Bool) (vehiculo : Vehiculo) (cliente : Cliente)
    (hvol : 0 < data.volumen_recogido_m3)
    (hveh : db.findVehiculo data.vehiculoId = some vehiculo)
    (hcap : shortestDec data.volumen_recogido_m3 ≤ vehiculo.capacidad_max_m3)
    (hcli : db.findCliente data.clienteId = some cliente)
    (htra : db.findTrabajador data.trabajadorId = none) :
    crearServicioRecogida db data wf =
      (db, .error (.notFoundError "Trabajador" data.trabajadorId)) := by
  rw [crearServicioRecogida, if_neg (not_le.mpr hvol), hveh]
  simp only []
  rw [if_neg (not_lt.mpr hcap), hcli]
  simp only []
  rw [htra]

/-- Create: when every validation passes, the operation succeeds or fails
depending only on the store write, and a failed write reports the
persistence wrapper error. -/
theorem crear_validaciones_pasan (db : Store) (data : CreateServicioRecogidaData)
    (wf : Bool) (vehiculo : Vehiculo) (cliente : Cliente) (trabajador : Trabajador)
    (hvol : 0 < data.volumen_recogido_m3)
    (hveh : db.findVehiculo data.vehiculoId = some vehiculo)
    (hcap : shortestDec data.volumen_recogido_m3 ≤ vehiculo.capacidad_max_m3)
    (hcli : db.findCliente data.clienteId = some cliente)
    (htra : db.findTrabajador data.trabajadorId = some trabajador) :
    crearServicioRecogida db data wf =
      if wf then
        (db, .error (.persistenceError
          "No se pudo crear el servicio de recogida debido a un error interno."))
      else
        ({ db with
            servicios := db.servicios ++
              [⟨db.nextServicioId, data.clienteId, data.vehiculoId,
                data.trabajadorId, data.fecha,
                shortestDec data.volumen_recogido_m3,
                roundHalfUp2 (qmul (shortestDec data.volumen_recogido_m3)
                  cliente.tarifa_por_m3)⟩]
            nextServicioId := db.nextServicioId + 1 },
          .ok ⟨db.nextServicioId, data.clienteId, data.vehiculoId,
            data.trabajadorId, data.fecha,
            shortestDec data.volumen_recogido_m3,
            roundHalfUp2 (qmul (shortestDec data.volumen_recogido_m3)
              cliente.tarifa_por_m3)⟩) := by
  rw [crearServicioRecogida, if_neg (not_le.mpr hvol), hveh]
  simp only []
  rw [if_neg (not_lt.mpr hcap), hcli]
  simp only []
  rw [htra]

/-- Update: an absent record id fails with the service `NotFound` error
before any merging, lookup or write, whatever the rest of the store and the
request hold. -/
theorem actualizar_servicio_ausente (db : Store) (id : ℤ)
    (data : UpdateServicioRecogidaData) (wf : Bool)
    (hsrv : db.findServicio id = none) :
    actualizarServicioRecogida db id data wf =
      (db, .error (.notFoundError "Servicio de recogida" id)) := by
  rw [actualizarServicioRecogida, hsrv]

/-- Update, check 1: a non-positive merged volume fails with the validation
message. -/
theorem actualizar_volumen_no_positivo (db : Store) (id : ℤ)
    (data : UpdateServicioRecogidaData) (wf : Bool)
    (servicioExistente : ServicioRecogida)
    (hsrv : db.findServicio id = some servicioExistente)
    (hvol : data.volumen_recogido_m3.getD
      (nearestDouble servicioExistente.volumen_recogido_m3) ≤ 0) :
    actualizarServicioRecogida db id data wf =
      (db, .error (.validationError "El volumen recogido debe ser un valor positivo.")) := by
  rw [actualizarServicioRecogida, hsrv]
  simp only []
  rw [if_pos hvol]

/-- Update, check 2: a missing merged vehicle fails with the vehicle
`NotFound` error naming the merged id. -/
theorem actualizar_vehiculo_ausente (db : Store) (id : ℤ)
    (data : UpdateServicioRecogidaData) (wf : Bool)
    (servicioExistente : ServicioRecogida)
    (hsrv : db.findServicio id = some servicioExistente)
    (hvol : 0 < data.volumen_recogido_m3.getD
      (nearestDouble servicioExistente.volumen_recogido_m3))
    (hveh : db.findVehiculo (data.vehiculoId.getD servicioExistente.vehiculoId) = none) :
    actualizarServicioRecogida db id data wf =
      (db, .error (.notFoundError "Vehículo"
        (data.vehiculoId.getD servicioExistente.vehiculoId))) := by
  rw [actualizarServicioRecogida, hsrv]
  simp only []
  rw [if_neg (not_le.mpr hvol), hveh]

/-- Update, check 3: a merged volume whose decimal conversion exceeds the
merged vehicle capacity fails with the capacity error carrying the attempted
volume and the limit. -/
theorem actualizar_capacidad_excedida (db : Store) (id : ℤ)
    (data : UpdateServicioRecogidaData) (wf : Bool)
    (servicioExistente : ServicioRecogida) (vehiculo : Vehiculo)
    (hsrv : db.findServicio id = some servicioExistente)
    (hvol : 0 < data.volumen_recogido_m3.getD
      (nearestDouble servicioExistente.volumen_recogido_m3))
    (hveh : db.findVehiculo (data.vehiculoId.getD servicioExistente.vehiculoId)
      = some vehiculo)
    (hcap : vehiculo.capacidad_max_m3 < shortestDec (data.volumen_recogido_m3.getD
      (nearestDouble servicioExistente.volumen_recogido_m3))) :
    actualizarServicioRecogida db id data wf =
      (db, .error (.capacityExceededError
        (data.volumen_recogido_m3.getD
          (nearestDouble servicioExistente.volumen_recogido_m3))
        vehiculo.capacidad_max_m3)) := by
  rw [actualizarServicioRecogida, hsrv]
  simp only []
  rw [if_neg (not_le.mpr hvol), hveh]
  simp only []
  rw [if_pos hcap]

/-- Update, check 4: a missing merged client fails with the client
`NotFound` error naming the merged id. -/
theorem actualizar_cliente_ausente (db : Store) (id : ℤ)
    (data : UpdateServicioRecogidaData) (wf : Bool)
    (servicioExistente : ServicioRecogida) (vehiculo : Vehiculo)
    (hsrv : db.findServicio id = some servicioExistente)
    (hvol : 0 < data.volumen_recogido_m3.getD
      (nearestDouble servicioExistente.volumen_recogido_m3))
    (hveh : db.findVehiculo (data.vehiculoId.getD servicioExistente.vehiculoId)
      = some vehiculo)
    (hcap : shortestDec (data.volumen_recogido_m3.getD
        (nearestDouble servicioExistente.volumen_recogido_m3))
      ≤ vehiculo.capacidad_max_m3)
    (hcli : db.findCliente (data.clienteId.getD servicioExistente.clienteId) = none) :
    actualizarServicioRecogida db id data wf =
      (db, .error (.notFoundError "Cliente"
        (data.clienteId.getD servicioExistente.clienteId))) := by
  rw [actualizarServicioRecogida, hsrv]
  simp only []
  rw [if_neg (not_le.mpr hvol), hveh]
  simp only []
  rw [if_neg (not_lt.mpr hcap), hcli]

/-- Update, check 5: a missing merged worker fails with the worker
`NotFound` error naming the merged id. -/
theorem actualizar_trabajador_ausente (db : Store) (id : ℤ)
    (data : UpdateServicioRecogidaData) (wf : Bool)
    (servicioExistente : ServicioRecogida) (vehiculo : Vehiculo) (cliente : Cliente)
    (hsrv : db.findServicio id = some servicioExistente)
    (hvol : 0 < data.volumen_recogido_m3.getD
      (nearestDouble servicioExistente.volumen_recogido_m3))
    (hveh : db.findVehiculo (data.vehiculoId.getD servicioExistente.vehiculoId)
      = some vehiculo)
    (hcap : shortestDec (data.volumen_recogido_m3.getD
        (nearestDouble servicioExistente.volumen_recogido_m3))
      ≤ vehiculo.capacidad_max_m3)
    (hcli : db.findCliente (data.clienteId.getD servicioExistente.clienteId)
      = some cliente)
    (htra : db.findTrabajador (data.trabajadorId.getD servicioExistente.trabajadorId)
      = none) :
    actualizarServicioRecogida db id data wf =
      (db, .error (.notFoundError "Trabajador"
        (data.trabajadorId.getD servicioExistente.trabajadorId))) := by
  rw [actualizarServicioRecogida, hsrv]
  simp only []
  rw [if_neg (not_le.mpr hvol), hveh]
  simp only []
  rw [if_neg (not_lt.mpr hcap), hcli]
  simp only []
  rw [htra]

/-- Update: when every validation on the merged values passes, the operation
succeeds or fails depending only on the store write, persisting the merged
record with recomputed volume and cost. -/
theorem actualizar_validaciones_pasan (db : Store) (id : ℤ)
    (data : UpdateServicioRecogidaData) (wf : Bool)
    (servicioExistente : ServicioRecogida) (vehiculo : Vehiculo)
    (cliente : Cliente) (trabajador : Trabajador)
    (hsrv : db.findServicio id = some servicioExistente)
    (hvol : 0 < data.volumen_recogido_m3.getD
      (nearestDouble servicioExistente.volumen_recogido_m3))
    (hveh : db.findVehiculo (data.vehiculoId.getD servicioExistente.vehiculoId)
      = some vehiculo)
    (hcap : shortestDec (data.volumen_recogido_m3.getD
        (nearestDouble servicioExistente.volumen_recogido_m3))
      ≤ vehiculo.capacidad_max_m3)
    (hcli : db.findCliente (data.clienteId.getD servicioExistente.clienteId)
      = some cliente)
    (htra : db.findTrabajador (data.trabajadorId.getD servicioExistente.trabajadorId)
      = some trabajador) :
    actualizarServicioRecogida db id data wf =
      if wf then
        (db, .error (.persistenceError "No se pudo actualizar el servicio de recogida."))
      else
        ({ db with
            servicios := db.servicios.map
              (fun s => if s.id == id then
                ⟨servicioExistente.id,
                  data.clienteId.getD servicioExistente.clienteId,
                  data.vehiculoId.getD servicioExistente.vehiculoId,
                  data.trabajadorId.getD servicioExistente.trabajadorId,
                  data.fecha.getD servicioExistente.fecha,
                  shortestDec (data.volumen_recogido_m3.getD
                    (nearestDouble servicioExistente.volumen_recogido_m3)),
                  roundHalfUp2 (qmul
                    (shortestDec (data.volumen_recogido_m3.getD
                      (nearestDouble servicioExistente.volumen_recogido_m3)))
                    cliente.tarifa_por_m3)⟩
                else s) },
          .ok ⟨servicioExistente.id,
            data.clienteId.getD servicioExistente.clienteId,
            data.vehiculoId.getD servicioExistente.vehiculoId,
            data.trabajadorId.getD servicioExistente.trabajadorId,
            data.fecha.getD servicioExistente.fecha,
            shortestDec (data.volumen_recogido_m3.getD
              (nearestDouble servicioExistente.volumen_recogido_m3)),
            roundHalfUp2 (qmul
              (shortestDec (data.volumen_recogido_m3.getD
                (nearestDouble servicioExistente.volumen_recogido_m3)))
              cliente.tarifa_por_m3)⟩) := by
  rw [actualizarServicioRecogida, hsrv]
  simp only []
  rw [if_neg (not_le.mpr hvol), hveh]
  simp only []
  rw [if_neg (not_lt.mpr hcap), hcli]
  simp only []
  rw [htra]

/-- Delete of an absent record: prisma throws, the `catch` wraps the failure
in the generic message, and the store is untouched — the result is the same
on every repeated call. -/
theorem eliminar_servicio_ausente (db : Store) (id : ℤ) (wf : Bool)
    (hsrv : db.findServicio id = none) :
    eliminarServicioRecogida db id wf =
      (db, .error (.persistenceError "No se pudo eliminar el servicio de recogida.")) := by
  rw [eliminarServicioRecogida, hsrv]

/-- Delete of an existing record with a healthy store removes exactly the
records bearing that id and returns the deleted record. -/
theorem eliminar_servicio_existente (db : Store) (id : ℤ)
    (servicio : ServicioRecogida)
    (hsrv : db.findServicio id = some servicio) :
    eliminarServicioRecogida db id false =
      ({ db with servicios := db.servicios.filter (fun s => !(s.id == id)) },
        .ok servicio) := by
  rw [eliminarServicioRecogida, hsrv]
  simp only []
  rw [if_neg (by simp)]

/-- C1: for every create or update that passes all validations, the persisted
`costo_servicio` equals `round_half_up(volume × tarifa_por_m3, 2)` computed
with exact decimal arithmetic from the persisted effective volume and the
referenced client's current rate; the input types carry no cost field, so
the cost can never come from the caller. -/
theorem C1_costo_derivado_servidor :
    (∀ (db : Store) (data : CreateServicioRecogidaData) (wf : Bool)
        (db2 : Store) (svc : ServicioRecogida),
      crearServicioRecogida db data wf = (db2, .ok svc) →
      ∃ cliente, db.findCliente data.clienteId = some cliente ∧
        svc.volumen_recogido_m3 = shortestDec data.volumen_recogido_m3 ∧
        svc.costo_servicio =
          roundHalfUp2 (svc.volumen_recogido_m3 * cliente.tarifa_por_m3)) ∧
    (∀ (db : Store) (id : ℤ) (data : UpdateServicioRecogidaData) (wf : Bool)
        (db2 : Store) (svc : ServicioRecogida),
      actualizarServicioRecogida db id data wf = (db2, .ok svc) →
      ∃ cliente, db.findCliente svc.clienteId = some cliente ∧
        svc.costo_servicio =
          roundHalfUp2 (svc.volumen_recogido_m3 * cliente.tarifa_por_m3)) := by
  constructor
  · intro db data wf db2 svc h
    obtain ⟨-, -, vehiculo, cliente, trabajador, hveh, hcli, htra, hcap, hrec, -⟩ :=
      crearServicioRecogida_ok_inv h
    subst hrec
    exact ⟨cliente, hcli, rfl, by simp [qmul_eq_mul]⟩
  · intro db id data wf db2 svc h
    obtain ⟨-, servicioExistente, vehiculo, cliente, trabajador, hsrv, hvol,
      hveh, hcli, htra, hcap, hrec, -⟩ := actualizarServicioRecogida_ok_inv h
    subst hrec
    exact ⟨cliente, hcli, by simp [qmul_eq_mul]⟩

/-- Witness for C1 at the §8 scenario of the spec: client rate 5.50, volume
15, persisted cost 82.50. -/
theorem C1_witness :
    ∃ cliente, dbDemo.findCliente 1 = some cliente ∧
      (⟨1, 1, 1, 1, 0, mkRat 15 1, mkRat 165 2⟩ :
          ServicioRecogida).volumen_recogido_m3 = shortestDec (mkRat 15 1) ∧
      (⟨1, 1, 1, 1, 0, mkRat 15 1, mkRat 165 2⟩ :
          ServicioRecogida).costo_servicio =
        roundHalfUp2 ((⟨1, 1, 1, 1, 0, mkRat 15 1, mkRat 165 2⟩ :
          ServicioRecogida).volumen_recogido_m3 * cliente.tarifa_por_m3) :=
  C1_costo_derivado_servidor.1 dbDemo ⟨1, 1, 1, 0, mkRat 15 1⟩ false
    ⟨[⟨1, "Hotel Sol", .HOTEL, "Calle Mayor 1", mkRat 11 2⟩],
     [⟨1, "ABC123", mkRat 20 1, mkRat 10 1⟩, ⟨2, "XYZ789", mkRat 10 1, mkRat 8 1⟩],
     [⟨1, "Ana", "conductora", mkRat 1200 1⟩],
     [⟨1, 1, 1, 1, 0, mkRat 15 1, mkRat 165 2⟩], 2⟩
    ⟨1, 1, 1, 1, 0, mkRat 15 1, mkRat 165 2⟩ (by decide)

/-- C2: `crearServicioRecogida` runs its five checks in order — volume
positive (`ValidationError`), vehicle exists (`NotFound` naming `Vehículo`),
capacity (`CapacityExceeded`), client exists (`NotFound` naming `Cliente`),
worker exists (`NotFound` naming `Trabajador`) — failing on the first
violated check whatever the later lookups would give. -/
theorem C2_orden_validaciones_crear :
    (∀ (db : Store) (data : CreateServicioRecogidaData) (wf : Bool),
      data.volumen_recogido_m3 ≤ 0 →
      crearServicioRecogida db data wf =
        (db, .error (.validationError
          "El volumen recogido debe ser un valor positivo."))) ∧
    (∀ (db : Store) (data : CreateServicioRecogidaData) (wf : Bool),
      0 < data.volumen_recogido_m3 →
      db.findVehiculo data.vehiculoId = none →
      crearServicioRecogida db data wf =
        (db, .error (.notFoundError "Vehículo" data.vehiculoId))) ∧
    (∀ (db : Store) (data : CreateServicioRecogidaData) (wf : Bool)
        (vehiculo : Vehiculo),
      0 < data.volumen_recogido_m3 →
      db.findVehiculo data.vehiculoId = some vehiculo →
      vehiculo.capacidad_max_m3 < shortestDec data.volumen_recogido_m3 →
      crearServicioRecogida db data wf =
        (db, .error (.capacityExceededError data.volumen_recogido_m3
          vehiculo.capacidad_max_m3))) ∧
    (∀ (db : Store) (data : CreateServicioRecogidaData) (wf : Bool)
        (vehiculo : Vehiculo),
      0 < data.volumen_recogido_m3 →
      db.findVehiculo data.vehiculoId = some vehiculo →
      shortestDec data.volumen_recogido_m3 ≤ vehiculo.capacidad_max_m3 →
      db.findCliente data.clienteId = none →
      crearServicioRecogida db data wf =
        (db, .error (.notFoundError "Cliente" data.clienteId))) ∧
    (∀ (db : Store) (data : CreateServicioRecogidaData) (wf : Bool)
        (vehiculo : Vehiculo) (cliente : Cliente),
      0 < data.volumen_recogido_m3 →
      db.findVehiculo data.vehiculoId = some vehiculo →
      shortestDec data.volumen_recogido_m3 ≤ vehiculo.capacidad_max_m3 →
      db.findCliente data.clienteId = some cliente →
      db.findTrabajador data.trabajadorId = none →
      crearServicioRecogida db data wf =
        (db, .error (.notFoundError "Trabajador" data.trabajadorId))) :=
  ⟨crear_volumen_no_positivo, crear_vehiculo_ausente, crear_capacidad_excedida,
   crear_cliente_ausente, crear_trabajador_ausente⟩

/-- Witness for C2: each of the five ordered failures observed on a concrete
store. -/
theorem C2_witness :
    crearServicioRecogida dbDemo ⟨1, 1, 1, 0, mkRat 0 1⟩ false =
      (dbDemo, .error (.validationError
        "El volumen recogido debe ser un valor positivo.")) ∧
    crearServicioRecogida dbDemo ⟨1, 99, 1, 0, mkRat 15 1⟩ false =
      (dbDemo, .error (.notFoundError "Vehículo" 99)) ∧
    crearServicioRecogida dbDemo ⟨1, 1, 1, 0, mkRat 25 1⟩ false =
      (dbDemo, .error (.capacityExceededError (mkRat 25 1) (mkRat 20 1))) ∧
    crearServicioRecogida dbDemo ⟨77, 1, 1, 0, mkRat 15 1⟩ false =
      (dbDemo, .error (.notFoundError "Cliente" 77)) ∧
    crearServicioRecogida dbDemo ⟨1, 1, 88, 0, mkRat 15 1⟩ false =
      (dbDemo, .error (.notFoundError "Trabajador" 88)) :=
  ⟨C2_orden_validaciones_crear.1 dbDemo _ false (by decide),
   C2_orden_validaciones_crear.2.1 dbDemo _ false (by decide) (by decide),
   C2_orden_validaciones_crear.2.2.1 dbDemo _ false
     ⟨1, "ABC123", mkRat 20 1, mkRat 10 1⟩ (by decide) (by decide) (by decide),
   C2_orden_validaciones_crear.2.2.2.1 dbDemo _ false
     ⟨1, "ABC123", mkRat 20 1, mkRat 10 1⟩ (by decide) (by decide) (by decide)
     (by decide),
   C2_orden_validaciones_crear.2.2.2.2 dbDemo _ false
     ⟨1, "ABC123", mkRat 20 1, mkRat 10 1⟩
     ⟨1, "Hotel Sol", .HOTEL, "Calle Mayor 1", mkRat 11 2⟩ (by decide)
     (by decide) (by decide) (by decide) (by decide)⟩

/-- Every create either leaves the store untouched or returned a record. -/
theorem crear_store_o_exito (db : Store) (data : CreateServicioRecogidaData)
    (wf : Bool) :
    (crearServicioRecogida db data wf).1 = db ∨
    ∃ svc, (crearServicioRecogida db data wf).2 = .ok svc := by
  rw [crearServicioRecogida]
  split
  · exact Or.inl rfl
  · split
    · exact Or.inl rfl
    · split
      · exact Or.inl rfl
      · split
        · exact Or.inl rfl
        · split
          · exact Or.inl rfl
          · split
            · exact Or.inl rfl
            · exact Or.inr ⟨_, rfl⟩

/-- Every update either leaves the store untouched or returned a record. -/
theorem actualizar_store_o_exito (db : Store) (id : ℤ)
    (data : UpdateServicioRecogidaData) (wf : Bool) :
    (actualizarServicioRecogida db id data wf).1 = db ∨
    ∃ svc, (actualizarServicioRecogida db id data wf).2 = .ok svc := by
  rw [actualizarServicioRecogida]
  split
  · exact Or.inl rfl
  · split
    · exact Or.inl rfl
    · split
      · exact Or.inl rfl
      · split
        · exact Or.inl rfl
        · split
          · exact Or.inl rfl
          · split
            · exact Or.inl rfl
            · split
              · exact Or.inl rfl
              · exact Or.inr ⟨_, rfl⟩

/-- A create that throws a non-persistence error does so before the write:
the same error results whatever the write layer would have done. -/
theorem crear_error_validacion_independiente (db : Store)
    (data : CreateServicioRecogidaData) (wf wf2 : Bool) (db2 : Store)
    (e : ServicioError) (h : crearServicioRecogida db data wf = (db2, .error e))
    (hnp : ∀ m, e ≠ .persistenceError m) :
    crearServicioRecogida db data wf2 = (db2, .error e) := by
  by_cases hvol : data.volumen_recogido_m3 ≤ 0
  · rw [crear_volumen_no_positivo db data wf hvol] at h
    rw [crear_volumen_no_positivo db data wf2 hvol, ← h]
  · replace hvol := not_le.mp hvol
    rcases hveh : db.findVehiculo data.vehiculoId with _ | vehiculo
    · rw [crear_vehiculo_ausente db data wf hvol hveh] at h
      rw [crear_vehiculo_ausente db data wf2 hvol hveh, ← h]
    · by_cases hcap : vehiculo.capacidad_max_m3 < shortestDec data.volumen_recogido_m3
      · rw [crear_capacidad_excedida db data wf vehiculo hvol hveh hcap] at h
        rw [crear_capacidad_excedida db data wf2 vehiculo hvol hveh hcap, ← h]
      · replace hcap := not_lt.mp hcap
        rcases hcli : db.findCliente data.clienteId with _ | cliente
        · rw [crear_cliente_ausente db data wf vehiculo hvol hveh hcap hcli] at h
          rw [crear_cliente_ausente db data wf2 vehiculo hvol hveh hcap hcli, ← h]
        · rcases htra : db.findTrabajador data.trabajadorId with _ | trabajador
          · rw [crear_trabajador_ausente db data wf vehiculo cliente hvol hveh
              hcap hcli htra] at h
            rw [crear_trabajador_ausente db data wf2 vehiculo cliente hvol hveh
              hcap hcli htra, ← h]
          · rw [crear_validaciones_pasan db data wf vehiculo cliente trabajador
              hvol hveh hcap hcli htra] at h
            cases wf
            · simp at h
            · rw [if_pos rfl] at h
              simp only [Prod.mk.injEq, ServicioResult.error.injEq] at h
              exact absurd h.2.symm (hnp _)

/-- An update that throws a non-persistence error does so before the write:
the same error results whatever the write layer would have done. -/
theorem actualizar_error_validacion_independiente (db : Store) (id : ℤ)
    (data : UpdateServicioRecogidaData) (wf wf2 : Bool) (db2 : Store)
    (e : ServicioError)
    (h : actualizarServicioRecogida db id data wf = (db2, .error e))
    (hnp : ∀ m, e ≠ .persistenceError m) :
    actualizarServicioRecogida db id data wf2 = (db2, .error e) := by
  rcases hsrv : db.findServicio id with _ | servicioExistente
  · rw [actualizar_servicio_ausente db id data wf hsrv] at h
    rw [actualizar_servicio_ausente db id data wf2 hsrv, ← h]
  · by_cases hvol : data.volumen_recogido_m3.getD
        (nearestDouble servicioExistente.volumen_recogido_m3) ≤ 0
    · rw [actualizar_volumen_no_positivo db id data wf servicioExistente hsrv hvol] at h
      rw [actualizar_volumen_no_positivo db id data wf2 servicioExistente hsrv hvol, ← h]
    · replace hvol := not_le.mp hvol
      rcases hveh : db.findVehiculo (data.vehiculoId.getD servicioExistente.vehiculoId)
        with _ | vehiculo
      · rw [actualizar_vehiculo_ausente db id data wf servicioExistente hsrv hvol hveh] at h
        rw [actualizar_vehiculo_ausente db id data wf2 servicioExistente hsrv hvol hveh, ← h]
      · by_cases hcap : vehiculo.capacidad_max_m3 < shortestDec
            (data.volumen_recogido_m3.getD
              (nearestDouble servicioExistente.volumen_recogido_m3))
        · rw [actualizar_capacidad_excedida db id data wf servicioExistente vehiculo
            hsrv hvol hveh hcap] at h
          rw [actualizar_capacidad_excedida db id data wf2 servicioExistente vehiculo
            hsrv hvol hveh hcap, ← h]
        · replace hcap := not_lt.mp hcap
          rcases hcli : db.findCliente (data.clienteId.getD servicioExistente.clienteId)
            with _ | cliente
          · rw [actualizar_cliente_ausente db id data wf servicioExistente vehiculo
              hsrv hvol hveh hcap hcli] at h
            rw [actualizar_cliente_ausente db id data wf2 servicioExistente vehiculo
              hsrv hvol hveh hcap hcli, ← h]
          · rcases htra : db.findTrabajador
                (data.trabajadorId.getD servicioExistente.trabajadorId)
              with _ | trabajador
            · rw [actualizar_trabajador_ausente db id data wf servicioExistente
                vehiculo cliente hsrv hvol hveh hcap hcli htra] at h
              rw [actualizar_trabajador_ausente db id data wf2 servicioExistente
                vehiculo cliente hsrv hvol hveh hcap hcli htra, ← h]
            · rw [actualizar_validaciones_pasan db id data wf servicioExistente
                vehiculo cliente trabajador hsrv hvol hveh hcap hcli htra] at h
              cases wf
              · simp at h
              · rw [if_pos rfl] at h
                simp only [Prod.mk.injEq, ServicioResult.error.injEq] at h
                exact absurd h.2.symm (hnp _)

/-- C3: every validation failure of a create or update is raised before the
single persistence call — the store is returned unchanged and the same error
results whatever the write layer would have done — and a failure of the
persistence call itself surfaces as the `PersistenceError` wrapper. -/
theorem C3_validacion_antes_de_escritura :
    (∀ (db : Store) (data : CreateServicioRecogidaData) (wf : Bool)
        (db2 : Store) (e : ServicioError),
      crearServicioRecogida db data wf = (db2, .error e) → db2 = db) ∧
    (∀ (db : Store) (id : ℤ) (data : UpdateServicioRecogidaData) (wf : Bool)
        (db2 : Store) (e : ServicioError),
      actualizarServicioRecogida db id data wf = (db2, .error e) → db2 = db) ∧
    (∀ (db : Store) (data : CreateServicioRecogidaData) (wf wf2 : Bool)
        (db2 : Store) (e : ServicioError),
      crearServicioRecogida db data wf = (db2, .error e) →
      (∀ m, e ≠ .persistenceError m) →
      crearServicioRecogida db data wf2 = (db2, .error e)) ∧
    (∀ (db : Store) (id : ℤ) (data : UpdateServicioRecogidaData) (wf wf2 : Bool)
        (db2 : Store) (e : ServicioError),
      actualizarServicioRecogida db id data wf = (db2, .error e) →
      (∀ m, e ≠ .persistenceError m) →
      actualizarServicioRecogida db id data wf2 = (db2, .error e)) ∧
    (∀ (db : Store) (data : CreateServicioRecogidaData) (db2 : Store)
        (svc : ServicioRecogida),
      crearServicioRecogida db data false = (db2, .ok svc) →
      crearServicioRecogida db data true =
        (db, .error (.persistenceError
          "No se pudo crear el servicio de recogida debido a un error interno."))) ∧
    (∀ (db : Store) (id : ℤ) (data : UpdateServicioRecogidaData) (db2 : Store)
        (svc : ServicioRecogida),
      actualizarServicioRecogida db id data false = (db2, .ok svc) →
      actualizarServicioRecogida db id data true =
        (db, .error (.persistenceError
          "No se pudo actualizar el servicio de recogida."))) := by
  refine ⟨?_, ?_, crear_error_validacion_independiente,
    actualizar_error_validacion_independiente, ?_, ?_⟩
  · intro db data wf db2 e h
    rcases crear_store_o_exito db data wf with h1 | ⟨svc, h2⟩
    · rw [h] at h1
      exact h1
    · rw [h] at h2
      simp at h2
  · intro db id data wf db2 e h
    rcases actualizar_store_o_exito db id data wf with h1 | ⟨svc, h2⟩
    · rw [h] at h1
      exact h1
    · rw [h] at h2
      simp at h2
  · intro db data db2 svc h
    obtain ⟨-, hvol, vehiculo, cliente, trabajador, hveh, hcli, htra, hcap, -, -⟩ :=
      crearServicioRecogida_ok_inv h
    rw [crear_validaciones_pasan db data true vehiculo cliente trabajador
      hvol hveh hcap hcli htra, if_pos rfl]
  · intro db id data db2 svc h
    obtain ⟨-, servicioExistente, vehiculo, cliente, trabajador, hsrv, hvol,
      hveh, hcli, htra, hcap, -, -⟩ := actualizarServicioRecogida_ok_inv h
    rw [actualizar_validaciones_pasan db id data true servicioExistente
      vehiculo cliente trabajador hsrv hvol hveh hcap hcli htra, if_pos rfl]

/-- Witness for C3: a concrete failing create leaves the store unchanged and
behaves identically under a broken write layer, and a concrete valid create
under a broken write layer reports the persistence wrapper. -/
theorem C3_witness :
    dbDemo = dbDemo ∧
    crearServicioRecogida dbDemo ⟨1, 1, 1, 0, mkRat 25 1⟩ true =
      (dbDemo, .error (.capacityExceededError (mkRat 25 1) (mkRat 20 1))) ∧
    crearServicioRecogida dbDemo ⟨1, 1, 1, 0, mkRat 15 1⟩ true =
      (dbDemo, .error (.persistenceError
        "No se pudo crear el servicio de recogida debido a un error interno.")) :=
  ⟨C3_validacion_antes_de_escritura.1 dbDemo ⟨1, 1, 1, 0, mkRat 25 1⟩ false
     dbDemo (.capacityExceededError (mkRat 25 1) (mkRat 20 1)) (by decide),
   C3_validacion_antes_de_escritura.2.2.1 dbDemo ⟨1, 1, 1, 0, mkRat 25 1⟩
     false true dbDemo (.capacityExceededError (mkRat 25 1) (mkRat 20 1))
     (by decide) (fun m hm => ServicioError.noConfusion hm),
   C3_validacion_antes_de_escritura.2.2.2.2.1 dbDemo ⟨1, 1, 1, 0, mkRat 15 1⟩
     ⟨[⟨1, "Hotel Sol", .HOTEL, "Calle Mayor 1", mkRat 11 2⟩],
      [⟨1, "ABC123", mkRat 20 1, mkRat 10 1⟩, ⟨2, "XYZ789", mkRat 10 1, mkRat 8 1⟩],
      [⟨1, "Ana", "conductora", mkRat 1200 1⟩],
      [⟨1, 1, 1, 1, 0, mkRat 15 1, mkRat 165 2⟩], 2⟩
     ⟨1, 1, 1, 1, 0, mkRat 15 1, mkRat 165 2⟩ (by decide)⟩

/-- C5: every update re-runs the full validation chain against the merged
effective values — each absent field replaced by the persisted one, the
stored volume through its `toNumber()` conversion — so changing only the
vehicle re-validates the existing volume against the new capacity, changing
only the volume re-checks it against the existing vehicle, and supplying
neither still re-validates the existing volume against the existing
vehicle. -/
theorem C5_revalidacion_fusionada :
    (∀ (db : Store) (id : ℤ) (data : UpdateServicioRecogidaData) (wf : Bool)
        (servicioExistente : ServicioRecogida),
      db.findServicio id = some servicioExistente →
      data.volumen_recogido_m3.getD
        (nearestDouble servicioExistente.volumen_recogido_m3) ≤ 0 →
      actualizarServicioRecogida db id data wf =
        (db, .error (.validationError
          "El volumen recogido debe ser un valor positivo."))) ∧
    (∀ (db : Store) (id : ℤ) (data : UpdateServicioRecogidaData) (wf : Bool)
        (servicioExistente : ServicioRecogida),
      db.findServicio id = some servicioExistente →
      0 < data.volumen_recogido_m3.getD
        (nearestDouble servicioExistente.volumen_recogido_m3) →
      db.findVehiculo (data.vehiculoId.getD servicioExistente.vehiculoId) = none →
      actualizarServicioRecogida db id data wf =
        (db, .error (.notFoundError "Vehículo"
          (data.vehiculoId.getD servicioExistente.vehiculoId)))) ∧
    (∀ (db : Store) (id : ℤ) (data : UpdateServicioRecogidaData) (wf : Bool)
        (servicioExistente : ServicioRecogida) (vehiculo : Vehiculo),
      db.findServicio id = some servicioExistente →
      0 < data.volumen_recogido_m3.getD
        (nearestDouble servicioExistente.volumen_recogido_m3) →
      db.findVehiculo (data.vehiculoId.getD servicioExistente.vehiculoId)
        = some vehiculo →
      vehiculo.capacidad_max_m3 < shortestDec (data.volumen_recogido_m3.getD
        (nearestDouble servicioExistente.volumen_recogido_m3)) →
      actualizarServicioRecogida db id data wf =
        (db, .error (.capacityExceededError
          (data.volumen_recogido_m3.getD
            (nearestDouble servicioExistente.volumen_recogido_m3))
          vehiculo.capacidad_max_m3))) ∧
    (∀ (db : Store) (id : ℤ) (data : UpdateServicioRecogidaData) (wf : Bool)
        (servicioExistente : ServicioRecogida) (vehiculo : Vehiculo),
      db.findServicio id = some servicioExistente →
      0 < data.volumen_recogido_m3.getD
        (nearestDouble servicioExistente.volumen_recogido_m3) →
      db.findVehiculo (data.vehiculoId.getD servicioExistente.vehiculoId)
        = some vehiculo →
      shortestDec (data.volumen_recogido_m3.getD
          (nearestDouble servicioExistente.volumen_recogido_m3))
        ≤ vehiculo.capacidad_max_m3 →
      db.findCliente (data.clienteId.getD servicioExistente.clienteId) = none →
      actualizarServicioRecogida db id data wf =
        (db, .error (.notFoundError "Cliente"
          (data.clienteId.getD servicioExistente.clienteId)))) ∧
    (∀ (db : Store) (id : ℤ) (data : UpdateServicioRecogidaData) (wf : Bool)
        (servicioExistente : ServicioRecogida) (vehiculo : Vehiculo)
        (cliente : Cliente),
      db.findServicio id = some servicioExistente →
      0 < data.volumen_recogido_m3.getD
        (nearestDouble servicioExistente.volumen_recogido_m3) →
      db.findVehiculo (data.vehiculoId.getD servicioExistente.vehiculoId)
        = some vehiculo →
      shortestDec (data.volumen_recogido_m3.getD
          (nearestDouble servicioExistente.volumen_recogido_m3))
        ≤ vehiculo.capacidad_max_m3 →
      db.findCliente (data.clienteId.getD servicioExistente.clienteId)
        = some cliente →
      db.findTrabajador (data.trabajadorId.getD servicioExistente.trabajadorId)
        = none →
      actualizarServicioRecogida db id data wf =
        (db, .error (.notFoundError "Trabajador"
          (data.trabajadorId.getD servicioExistente.trabajadorId)))) :=
  ⟨actualizar_volumen_no_positivo, actualizar_vehiculo_ausente,
   actualizar_capacidad_excedida, actualizar_cliente_ausente,
   actualizar_trabajador_ausente⟩

/-- Witness for C5: on a store holding a record of volume 15.5 m³, (a)
changing only the vehicle to one of capacity 10 m³ re-validates the existing
volume and fails; (b) changing only the volume to 25 m³ re-checks it against
the existing vehicle of capacity 20 m³ and fails; (c) an update supplying
neither, on a store whose record references a vehicle of capacity 10 m³,
still re-validates the existing volume and fails. -/
theorem C5_witness :
    actualizarServicioRecogida dbDemoConServicio 1
      ⟨none, some 2, none, none, none⟩ false =
      (dbDemoConServicio, .error (.capacityExceededError (mkRat 31 2) (mkRat 10 1))) ∧
    actualizarServicioRecogida dbDemoConServicio 1
      ⟨none, none, none, none, some (mkRat 25 1)⟩ false =
      (dbDemoConServicio, .error (.capacityExceededError (mkRat 25 1) (mkRat 20 1))) ∧
    actualizarServicioRecogida
      ⟨[⟨1, "Hotel Sol", .HOTEL, "Calle Mayor 1", mkRat 11 2⟩],
       [⟨2, "XYZ789", mkRat 10 1, mkRat 8 1⟩],
       [⟨1, "Ana", "conductora", mkRat 1200 1⟩],
       [⟨1, 1, 2, 1, 0, mkRat 31 2, mkRat 341 4⟩], 2⟩ 1
      ⟨none, none, none, none, none⟩ false =
      (⟨[⟨1, "Hotel Sol", .HOTEL, "Calle Mayor 1", mkRat 11 2⟩],
        [⟨2, "XYZ789", mkRat 10 1, mkRat 8 1⟩],
        [⟨1, "Ana", "conductora", mkRat 1200 1⟩],
        [⟨1, 1, 2, 1, 0, mkRat 31 2, mkRat 341 4⟩], 2⟩,
       .error (.capacityExceededError (mkRat 31 2) (mkRat 10 1))) :=
  ⟨C5_revalidacion_fusionada.2.2.1 dbDemoConServicio 1
     ⟨none, some 2, none, none, none⟩ false
     ⟨1, 1, 1, 1, 0, mkRat 31 2, mkRat 341 4⟩
     ⟨2, "XYZ789", mkRat 10 1, mkRat 8 1⟩
     (by decide) (by decide) (by decide) (by decide),
   C5_revalidacion_fusionada.2.2.1 dbDemoConServicio 1
     ⟨none, none, none, none, some (mkRat 25 1)⟩ false
     ⟨1, 1, 1, 1, 0, mkRat 31 2, mkRat 341 4⟩
     ⟨1, "ABC123", mkRat 20 1, mkRat 10 1⟩
     (by decide) (by decide) (by decide) (by decide),
   C5_revalidacion_fusionada.2.2.1
     ⟨[⟨1, "Hotel Sol", .HOTEL, "Calle Mayor 1", mkRat 11 2⟩],
      [⟨2, "XYZ789", mkRat 10 1, mkRat 8 1⟩],
      [⟨1, "Ana", "conductora", mkRat 1200 1⟩],
      [⟨1, 1, 2, 1, 0, mkRat 31 2, mkRat 341 4⟩], 2⟩ 1
     ⟨none, none, none, none, none⟩ false
     ⟨1, 1, 2, 1, 0, mkRat 31 2, mkRat 341 4⟩
     ⟨2, "XYZ789", mkRat 10 1, mkRat 8 1⟩
     (by decide) (by decide) (by decide) (by decide)⟩

/-- C6: a create or update whose effective decimal volume strictly exceeds
the effective vehicle capacity fails with `CapacityExceededError` carrying
both the attempted volume and the capacity limit, while a volume exactly
equal to the capacity passes the check and (with the referenced client and
worker present and a healthy store) the operation succeeds. -/
theorem C6_capacidad_limite :
    (∀ (db : Store) (data : CreateServicioRecogidaData) (wf : Bool)
        (vehiculo : Vehiculo),
      0 < data.volumen_recogido_m3 →
      db.findVehiculo data.vehiculoId = some vehiculo →
      vehiculo.capacidad_max_m3 < shortestDec data.volumen_recogido_m3 →
      crearServicioRecogida db data wf =
        (db, .error (.capacityExceededError data.volumen_recogido_m3
          vehiculo.capacidad_max_m3))) ∧
    (∀ (db : Store) (data : CreateServicioRecogidaData) (vehiculo : Vehiculo)
        (cliente : Cliente) (trabajador : Trabajador),
      0 < data.volumen_recogido_m3 →
      db.findVehiculo data.vehiculoId = some vehiculo →
      shortestDec data.volumen_recogido_m3 = vehiculo.capacidad_max_m3 →
      db.findCliente data.clienteId = some cliente →
      db.findTrabajador data.trabajadorId = some trabajador →
      ∃ db2 svc, crearServicioRecogida db data false = (db2, .ok svc)) ∧
    (∀ (db : Store) (id : ℤ) (data : UpdateServicioRecogidaData) (wf : Bool)
        (servicioExistente : ServicioRecogida) (vehiculo : Vehiculo),
      db.findServicio id = some servicioExistente →
      0 < data.volumen_recogido_m3.getD
        (nearestDouble servicioExistente.volumen_recogido_m3) →
      db.findVehiculo (data.vehiculoId.getD servicioExistente.vehiculoId)
        = some vehiculo →
      vehiculo.capacidad_max_m3 < shortestDec (data.volumen_recogido_m3.getD
        (nearestDouble servicioExistente.volumen_recogido_m3)) →
      actualizarServicioRecogida db id data wf =
        (db, .error (.capacityExceededError
          (data.volumen_recogido_m3.getD
            (nearestDouble servicioExistente.volumen_recogido_m3))
          vehiculo.capacidad_max_m3))) ∧
    (∀ (db : Store) (id : ℤ) (data : UpdateServicioRecogidaData)
        (servicioExistente : ServicioRecogida) (vehiculo : Vehiculo)
        (cliente : Cliente) (trabajador : Trabajador),
      db.findServicio id = some servicioExistente →
      0 < data.volumen_recogido_m3.getD
        (nearestDouble servicioExistente.volumen_recogido_m3) →
      db.findVehiculo (data.vehiculoId.getD servicioExistente.vehiculoId)
        = some vehiculo →
      shortestDec (data.volumen_recogido_m3.getD
          (nearestDouble servicioExistente.volumen_recogido_m3))
        = vehiculo.capacidad_max_m3 →
      db.findCliente (data.clienteId.getD servicioExistente.clienteId)
        = some cliente →
      db.findTrabajador (data.trabajadorId.getD servicioExistente.trabajadorId)
        = some trabajador →
      ∃ db2 svc, actualizarServicioRecogida db id data false = (db2, .ok svc)) := by
  refine ⟨crear_capacidad_excedida, ?_, actualizar_capacidad_excedida, ?_⟩
  · intro db data vehiculo cliente trabajador hvol hveh hcap hcli htra
    have h := crear_validaciones_pasan db data false vehiculo cliente trabajador
      hvol hveh hcap.le hcli htra
    rw [if_neg (by decide)] at h
    exact ⟨_, _, h⟩
  · intro db id data servicioExistente vehiculo cliente trabajador hsrv hvol
      hveh hcap hcli htra
    have h := actualizar_validaciones_pasan db id data false servicioExistente
      vehiculo cliente trabajador hsrv hvol hveh hcap.le hcli htra
    rw [if_neg (by decide)] at h
    exact ⟨_, _, h⟩

/-- Witness for C6 at the §8 scenario: volume 25 m³ against capacity 20 m³
fails mentioning 25 and 20; volume exactly 20 m³ is accepted. -/
theorem C6_witness :
    crearServicioRecogida dbDemo ⟨1, 1, 1, 0, mkRat 25 1⟩ false =
      (dbDemo, .error (.capacityExceededError (mkRat 25 1) (mkRat 20 1))) ∧
    ∃ db2 svc, crearServicioRecogida dbDemo ⟨1, 1, 1, 0, mkRat 20 1⟩ false =
      (db2, .ok svc) :=
  ⟨C6_capacidad_limite.1 dbDemo ⟨1, 1, 1, 0, mkRat 25 1⟩ false
     ⟨1, "ABC123", mkRat 20 1, mkRat 10 1⟩ (by decide) (by decide) (by decide),
   C6_capacidad_limite.2.1 dbDemo ⟨1, 1, 1, 0, mkRat 20 1⟩
     ⟨1, "ABC123", mkRat 20 1, mkRat 10 1⟩
     ⟨1, "Hotel Sol", .HOTEL, "Calle Mayor 1", mkRat 11 2⟩
     ⟨1, "Ana", "conductora", mkRat 1200 1⟩
     (by decide) (by decide) (by decide) (by decide) (by decide)⟩

/-- C7: an update aimed at an identifier with no existing service record
fails with the `NotFound` error naming `Servicio de recogida` and that id,
before any merge, any other entity lookup, and any write — the result is the
same for every request body, every store content for the other entities, and
even a broken write layer. -/
theorem C7_actualizar_registro_ausente :
    ∀ (db : Store) (id : ℤ) (data : UpdateServicioRecogidaData) (wf : Bool),
      db.findServicio id = none →
      actualizarServicioRecogida db id data wf =
        (db, .error (.notFoundError "Servicio de recogida" id)) :=
  actualizar_servicio_ausente

/-- Witness for C7: a garbage-laden update of an absent record id 42 on a
broken write layer still reports exactly the record `NotFound` error. -/
theorem C7_witness :
    actualizarServicioRecogida dbDemo 42
      ⟨some 77, some 88, some 99, some 5, some (mkRat (-3) 1)⟩ true =
      (dbDemo, .error (.notFoundError "Servicio de recogida" 42)) :=
  C7_actualizar_registro_ausente dbDemo 42
    ⟨some 77, some 88, some 99, some 5, some (mkRat (-3) 1)⟩ true (by decide)

/-- Counterexample to C8: deleting the absent identifier 99 does fail rather
than succeed silently, but the thrown error is the generic catch-all wrapper
of `eliminarServicioRecogida` — not a `NotFoundError` naming the missing
entity, contradicting the claim as stated. -/
theorem C8_counterexample :
    eliminarServicioRecogida dbDemo 99 false =
      (dbDemo, .error (.persistenceError
        "No se pudo eliminar el servicio de recogida.")) ∧
    (ServicioError.persistenceError
      "No se pudo eliminar el servicio de recogida.").esNotFound = false := by
  constructor
  · decide
  · rfl

/-- C8 amended: deleting an identifier with no existing record consistently
fails — with the generic persistence wrapper error, not a `NotFoundError` —
leaves the store untouched, and behaves identically on every repeated call;
deleting an existing identifier removes the records bearing that id and
returns the deleted record. -/
theorem C8_eliminar_consistente :
    (∀ (db : Store) (id : ℤ) (wf : Bool),
      db.findServicio id = none →
      eliminarServicioRecogida db id wf =
        (db, .error (.persistenceError
          "No se pudo eliminar el servicio de recogida."))) ∧
    (∀ (db : Store) (id : ℤ) (wf : Bool),
      db.findServicio id = none →
      eliminarServicioRecogida (eliminarServicioRecogida db id wf).1 id wf =
        eliminarServicioRecogida db id wf) ∧
    (∀ (db : Store) (id : ℤ) (servicio : ServicioRecogida),
      db.findServicio id = some servicio →
      eliminarServicioRecogida db id false =
        ({ db with servicios := db.servicios.filter (fun s => !(s.id == id)) },
          .ok servicio)) := by
  refine ⟨eliminar_servicio_ausente, ?_, eliminar_servicio_existente⟩
  intro db id wf hsrv
  rw [eliminar_servicio_ausente db id wf hsrv]
  rw [eliminar_servicio_ausente db id wf hsrv]

/-- Witness for the amended C8: deleting absent id 99 twice in a row gives
the same wrapped failure and no store change; deleting existing id 1 removes
the record. -/
theorem C8_witness :
    eliminarServicioRecogida dbDemoConServicio 99 false =
      (dbDemoConServicio, .error (.persistenceError
        "No se pudo eliminar el servicio de recogida.")) ∧
    eliminarServicioRecogida
        (eliminarServicioRecogida dbDemoConServicio 99 false).1 99 false =
      eliminarServicioRecogida dbDemoConServicio 99 false ∧
    eliminarServicioRecogida dbDemoConServicio 1 false =
      ({ dbDemoConServicio with
          servicios := dbDemoConServicio.servicios.filter (fun s => !(s.id == 1)) },
        .ok ⟨1, 1, 1, 1, 0, mkRat 31 2, mkRat 341 4⟩) :=
  ⟨C8_eliminar_consistente.1 dbDemoConServicio 99 false (by decide),
   C8_eliminar_consistente.2.1 dbDemoConServicio 99 false (by decide),
   C8_eliminar_consistente.2.2 dbDemoConServicio 1
     ⟨1, 1, 1, 1, 0, mkRat 31 2, mkRat 341 4⟩ (by decide)⟩

/-- Counterexample to C4: the store holds a record whose volume is the
17-significant-digit decimal 0.10000000000000001; an update supplying no
field at all — which the claim says re-uses the existing volume without
precision loss — persists volume 0.1 instead: the merge goes through
`Decimal.toNumber()` and back, and the nearest binary64 value of
0.10000000000000001 has 0.1 as its shortest decimal representation. -/
theorem C4_counterexample :
    actualizarServicioRecogida dbPrecision 1 ⟨none, none, none, none, none⟩ false =
      (⟨[⟨1, "Hotel Sol", .HOTEL, "Calle Mayor 1", mkRat 10 1⟩],
        [⟨1, "ABC123", mkRat 20 1, mkRat 10 1⟩],
        [⟨1, "Ana", "conductora", mkRat 1200 1⟩],
        [⟨1, 1, 1, 1, 0, mkRat 1 10, mkRat 1 1⟩], 2⟩,
       .ok ⟨1, 1, 1, 1, 0, mkRat 1 10, mkRat 1 1⟩) ∧
    (mkRat 1 10 : ℚ) ≠ mkRat 10000000000000001 100000000000000000 := by
  constructor
  · decide
  · decide

/-- C4 amended: every field not supplied in an update takes its effective
value from the persisted record; the existing stored volume, however, is
re-read through `Decimal.toNumber()` and `new Prisma.Decimal(...)` — a
binary64 round-trip that is exact precisely for volumes that are the
shortest decimal representation of their own nearest binary64 value (in
particular every volume this workflow itself persists, each being a
`shortestDec` image), but loses precision on other storable decimals. -/
theorem C4_fusion_y_redondeo :
    (∀ (db : Store) (id : ℤ) (data : UpdateServicioRecogidaData) (wf : Bool)
        (db2 : Store) (svc servicioExistente : ServicioRecogida),
      db.findServicio id = some servicioExistente →
      actualizarServicioRecogida db id data wf = (db2, .ok svc) →
      svc.clienteId = data.clienteId.getD servicioExistente.clienteId ∧
      svc.vehiculoId = data.vehiculoId.getD servicioExistente.vehiculoId ∧
      svc.trabajadorId = data.trabajadorId.getD servicioExistente.trabajadorId ∧
      svc.fecha = data.fecha.getD servicioExistente.fecha ∧
      svc.volumen_recogido_m3 = shortestDec (data.volumen_recogido_m3.getD
        (nearestDouble servicioExistente.volumen_recogido_m3))) ∧
    (∀ x : ℚ, nearestDouble (shortestDec x) = x →
      shortestDec (nearestDouble (shortestDec x)) = shortestDec x) := by
  constructor
  · intro db id data wf db2 svc servicioExistente hsrv h
    obtain ⟨-, sE2, vehiculo, cliente, trabajador, hsrv2, hvol, hveh, hcli,
      htra, hcap, hrec, -⟩ := actualizarServicioRecogida_ok_inv h
    rw [hsrv] at hsrv2
    obtain rfl := Option.some.inj hsrv2
    subst hrec
    exact ⟨rfl, rfl, rfl, rfl, rfl⟩
  · intro x h
    rw [h]

/-- Witness for the amended C4: an update supplying nothing on the 15.5 m³
record keeps every reference and re-persists volume `shortestDec 15.5 = 15.5`
(the stored volume is in the exact-round-trip class), and the binary64 value
0.5 round-trips exactly through the shortest-decimal conversion. -/
theorem C4_witness :
    ((1 : ℤ) = 1 ∧ (1 : ℤ) = 1 ∧ (1 : ℤ) = 1 ∧ (0 : ℚ) = 0 ∧
      mkRat 31 2 = shortestDec (nearestDouble (mkRat 31 2))) ∧
    shortestDec (nearestDouble (shortestDec (mkRat 1 2))) = shortestDec (mkRat 1 2) :=
  ⟨C4_fusion_y_redondeo.1 dbDemoConServicio 1 ⟨none, none, none, none, none⟩
     false dbDemoConServicio ⟨1, 1, 1, 1, 0, mkRat 31 2, mkRat 341 4⟩
     ⟨1, 1, 1, 1, 0, mkRat 31 2, mkRat 341 4⟩ (by decide) (by decide),
   C4_fusion_y_redondeo.2 (mkRat 1 2) (by decide)⟩

mutual

/-- JSON round-trip with the bigint replacer agrees with the direct deep
replacement, on values. -/
theorem serialize_eq_replace_val :
    (v : JsValue) → parseJson (stringifyWithReplacer v) = replaceBigintsDeep v
  | .null => rfl
  | .bool _ => rfl
  | .num _ => rfl
  | .str _ => rfl
  | .bigint _ => rfl
  | .arr xs => congrArg JsValue.arr (serialize_eq_replace_arr xs)
  | .obj fs => congrArg JsValue.obj (serialize_eq_replace_obj fs)

/-- JSON round-trip with the bigint replacer agrees with the direct deep
replacement, on arrays. -/
theorem serialize_eq_replace_arr :
    (xs : JsArray) → parseArr (stringifyArr xs) = replaceBigintsArr xs
  | .nil => rfl
  | .cons x xs => by
    rw [stringifyArr, parseArr, replaceBigintsArr,
      serialize_eq_replace_val x, serialize_eq_replace_arr xs]

/-- JSON round-trip with the bigint replacer agrees with the direct deep
replacement, on object field lists. -/
theorem serialize_eq_replace_obj :
    (fs : JsObject) → parseObj (stringifyObj fs) = replaceBigintsObj fs
  | .nil => rfl
  | .cons k v fs => by
    rw [stringifyObj, parseObj, replaceBigintsObj,
      serialize_eq_replace_val v, serialize_eq_replace_obj fs]

end

/-- C9: for every JSON-serialisable value, `serializeBigInt` — the
`JSON.parse(JSON.stringify(obj, replacer))` round-trip — returns the
structurally identical value in which every bigint at any nesting depth is
replaced by its base-10 string representation and every other value is
unchanged, so arbitrarily large identifiers cross the serialisation boundary
without loss. -/
theorem C9_serializeBigInt_reemplaza :
    ∀ v : JsValue, serializeBigInt v = replaceBigintsDeep v :=
  serialize_eq_replace_val

/-- C10: in the PUT handler, `clienteId`, `vehiculoId`, `trabajadorId` and
`fecha` are treated as not supplied whenever falsy (`0`, the empty string,
`null`, absent) — the existing persisted value is then kept — whereas
`volumen_recogido_m3` counts as supplied whenever it is not `undefined`: a
body with volume `0` reaches the workflow and is rejected by the
positive-volume validation, while a reference identifier of `0` silently
leaves the old reference in place. -/
theorem C10_put_falsy_vs_undefined :
    (∀ v : BodyVal, v.truthy = false → refArgOf v = some none) ∧
    (∀ v : BodyVal, v.truthy = false → fechaArgOf v = none) ∧
    (volArgOf .undef = some none ∧ ∀ q : ℚ, volArgOf (.num q) = some (some q)) ∧
    (∀ (db : Store) (id clienteId vehiculoId trabajadorId fecha : BodyVal)
        (i : ℤ) (s : ServicioRecogida) (cArg vArg tArg : Option ℤ),
      id.truthy = true → bodyToBigInt id = some i →
      refArgOf clienteId = some cArg → refArgOf vehiculoId = some vArg →
      refArgOf trabajadorId = some tArg →
      db.findServicio i = some s →
      handlerPut db id clienteId vehiculoId trabajadorId fecha (.num 0) =
        .serverError (some (.validationError
          "El volumen recogido debe ser un valor positivo."))) ∧
    (∀ (db : Store) (id clienteId vehiculoId trabajadorId fecha volumen : BodyVal)
        (i : ℤ) (s : ServicioRecogida) (db2 : Store) (svc : ServicioRecogida),
      id.truthy = true → bodyToBigInt id = some i →
      clienteId.truthy = false →
      db.findServicio i = some s →
      handlerPut db id clienteId vehiculoId trabajadorId fecha volumen =
        .ok db2 svc →
      svc.clienteId = s.clienteId) := by
  refine ⟨?_, ?_, ⟨rfl, fun q => rfl⟩, ?_, ?_⟩
  · intro v h
    simp [refArgOf, h]
  · intro v h
    simp [fechaArgOf, h]
  · intro db id clienteId vehiculoId trabajadorId fecha i s cArg vArg tArg
      htruthy hid hc hv ht hsrv
    rw [handlerPut, if_neg (by simp [htruthy]), hid, hc, hv, ht]
    simp only [volArgOf]
    rw [actualizar_volumen_no_positivo db i ⟨cArg, vArg, tArg, fechaArgOf fecha,
      some (0 : ℚ)⟩ false s hsrv (by simp)]
  · intro db id clienteId vehiculoId trabajadorId fecha volumen i s db2 svc
      htruthy hid hcfalsy hsrv h
    rw [handlerPut, if_neg (by simp [htruthy]), hid] at h
    have hc : refArgOf clienteId = some none := by simp [refArgOf, hcfalsy]
    rw [hc] at h
    rcases hv : refArgOf vehiculoId with _ | vArg
    · rw [hv] at h
      simp at h
    · rw [hv] at h
      rcases ht : refArgOf trabajadorId with _ | tArg
      · rw [ht] at h
        simp at h
      · rw [ht] at h
        rcases hvo : volArgOf volumen with _ | voArg
        · rw [hvo] at h
          simp at h
        · rw [hvo] at h
          simp only [] at h
          rcases hact : actualizarServicioRecogida db i
            ⟨none, vArg, tArg, fechaArgOf fecha, voArg⟩ false with ⟨db3, r⟩
          rw [hact] at h
          rcases r with svc2 | e
          · simp only [ApiResult.ok.injEq] at h
            obtain ⟨-, rfl⟩ := h
            obtain ⟨-, sE2, vehiculo, cliente, trabajador, hsrv2, hvol, hveh,
              hcli, htra, hcap, hrec, -⟩ := actualizarServicioRecogida_ok_inv hact
            rw [hsrv] at hsrv2
            obtain rfl := Option.some.inj hsrv2
            subst hrec
            rfl
          · simp at h

/-- Witness for C10: on the store holding record 1, a PUT with every
reference field falsy and volume `0` is rejected by the positive-volume
validation with a 500, while a PUT with `clienteId = 0` that succeeds keeps
the old client reference. -/
theorem C10_witness :
    handlerPut dbDemoConServicio (.num 1) (.num 0) (.num 0) (.str "") .null
      (.num 0) =
      .serverError (some (.validationError
        "El volumen recogido debe ser un valor positivo.")) ∧
    (⟨1, 1, 1, 1, 0, mkRat 31 2, mkRat 341 4⟩ :
        ServicioRecogida).clienteId =
      (⟨1, 1, 1, 1, 0, mkRat 31 2, mkRat 341 4⟩ :
        ServicioRecogida).clienteId :=
  ⟨C10_put_falsy_vs_undefined.2.2.2.1 dbDemoConServicio (.num 1) (.num 0)
     (.num 0) (.str "") .null 1 ⟨1, 1, 1, 1, 0, mkRat 31 2, mkRat 341 4⟩
     none none none (by decide) (by decide) (by decide) (by decide) (by decide)
     (by decide),
   C10_put_falsy_vs_undefined.2.2.2.2 dbDemoConServicio (.num 1) (.num 0)
     .undef .null (.str "") .undef 1 ⟨1, 1, 1, 1, 0, mkRat 31 2, mkRat 341 4⟩
     dbDemoConServicio ⟨1, 1, 1, 1, 0, mkRat 31 2, mkRat 341 4⟩
     (by decide) (by decide) (by decide) (by decide) (by decide)⟩
